import Mathlib

/-!
# Seewaves PTP ingestion core: a shallow embedding

This file embeds, in Lean 4, the protocol/concurrency core of the
`seewaves` client: the PTP wire-packet data model (`src/ptp.h`), the
apply-packet algorithm executed by the data thread under the store lock
(`src/data_thread.c`, `data_thread_main`, lines 138–209), the receive-loop
outcome classification of the same function (lines 136–273), and the
heartbeat send tick of `heartbeat_thread_main` (`src/seewaves.c`,
lines 462–493).

Modelling conventions:
- C `float`/`double` values are modelled as `ℚ` (the code only copies,
  compares with `>`/`==` and halves them, all exact on the values involved);
- C unsigned integers are `ℕ`; `ssize_t` (a receive length) is `ℤ`;
- the per-particle C arrays `x`, `y`, `z`, `particle_type`, `t` are Lean
  lists; a C store of a value `v` at index `id` becomes `List.set id v`
  (for `id` beyond the array length the C code writes out of bounds, which
  is undefined behaviour; `List.set` leaves the list unchanged there, and
  the separate definition `data_thread_oob_writes` records exactly which
  attempted write indices fall outside the arrays);
- `errno` values are an enumerated type covering the cases the code
  distinguishes.
-/

/-- `UNDEFINED_PARTICLE` from `seewaves.h`: the sentinel (-1.0) stored in the
`x` array to mark a particle position as undefined. -/
def UNDEFINED_PARTICLE : ℚ := -1

/-- `PTP_HEARTBEAT_TTL_S` from `ptp.h`: heartbeat time-to-live in seconds. -/
def PTP_HEARTBEAT_TTL_S : ℤ := 1

/-- `sizeof(ptp_packet_t)` for the packed wire layout of `ptp.h`:
header `2 * sizeof(unsigned int) + 7 * sizeof(float)` = 36 bytes, plus
`PTP_PARTICLES_PER_PACKET = (1472 - 36) / 38 = 37` records of
`sizeof(ptp_particle_data_t)` = `4 + 4*8 + 2` = 38 bytes each. -/
def sizeof_ptp_packet_t : ℕ := 36 + 37 * 38

/-- One particle record on the wire (`ptp_particle_data_t` in `ptp.h`):
`id` (u32), `position[4]` (doubles; the code reads components 0,1,2),
`particle_type` (short). -/
structure ptp_particle_data_t where
  id : ℕ
  position0 : ℚ
  position1 : ℚ
  position2 : ℚ
  position3 : ℚ
  particle_type : ℤ
deriving DecidableEq, Repr

/-- One snapshot packet (`ptp_packet_t` in `ptp.h`): header fields followed
by `particle_count` particle records held in `data`. -/
structure ptp_packet_t where
  total_particle_count : ℕ
  particle_count : ℕ
  t : ℚ
  world_origin0 : ℚ
  world_origin1 : ℚ
  world_origin2 : ℚ
  world_size0 : ℚ
  world_size1 : ℚ
  world_size2 : ℚ
  data : List ptp_particle_data_t
deriving DecidableEq, Repr

/-- The fields of the global `seewaves_t` structure (`seewaves.h`) that the
data thread's apply-packet code reads or writes. -/
structure seewaves_t where
  total_particle_count : ℕ
  x : List ℚ
  y : List ℚ
  z : List ℚ
  particle_type : List ℤ
  t : List ℚ
  most_recent_timestamp : ℚ
  total_timesteps : ℕ
  packets_received : ℕ
  udp_buffer_size : ℕ
  rotation_center0 : ℚ
  rotation_center1 : ℚ
  rotation_center2 : ℚ
  world_origin0 : ℚ
  world_origin1 : ℚ
  world_origin2 : ℚ
  world_size0 : ℚ
  world_size1 : ℚ
  world_size2 : ℚ
deriving DecidableEq, Repr

/-- The zero-initialized store: `main` does
`memset(&g_seewaves, 0, sizeof(seewaves_t))`, so all counters and
timestamps start at 0 and all array pointers start NULL (empty). -/
def seewaves_empty : seewaves_t :=
  { total_particle_count := 0, x := [], y := [], z := [], particle_type := []
    t := [], most_recent_timestamp := 0, total_timesteps := 0
    packets_received := 0, udp_buffer_size := 0
    rotation_center0 := 0, rotation_center1 := 0, rotation_center2 := 0
    world_origin0 := 0, world_origin1 := 0, world_origin2 := 0
    world_size0 := 0, world_size1 := 0, world_size2 := 0 }

/-- One record write of the loop at `data_thread.c:192-203`: for the record
`r` of a packet with timestamp `pt`, the code stores
`t[id] = packet.t; x[id] = position[0]; y[id] = position[1];
z[id] = position[2]; particle_type[id] = particle_type`. -/
def data_thread_write_record (pt : ℚ) (sw : seewaves_t)
    (r : ptp_particle_data_t) : seewaves_t :=
  { sw with
    t := sw.t.set r.id pt
    x := sw.x.set r.id r.position0
    y := sw.y.set r.id r.position1
    z := sw.z.set r.id r.position2
    particle_type := sw.particle_type.set r.id r.particle_type }

/-- The records the loop at `data_thread.c:192-203` actually processes:
`for(; particle < packet.particle_count; particle++)` reads
`packet.data[particle]` — the loop variable `particle` is NOT re-initialized,
so it starts at `packet.total_particle_count` when the resize branch (which
ends with the sentinel-initialization loop over all particles) was taken,
and at its declaration value 0 otherwise. -/
def data_thread_loop_start (sw : seewaves_t) (p : ptp_packet_t) : ℕ :=
  if sw.total_particle_count ≠ p.total_particle_count
  then p.total_particle_count else 0

/-- Apply one received snapshot packet to the store: the body of the locked
region of `data_thread_main` (`data_thread.c:144-209`), assuming every
`calloc` of the resize branch succeeds (the code itself never checks them).

Step by step from the source:
1. lines 150–153: if `packet.t > most_recent_timestamp`, set
   `most_recent_timestamp = packet.t` and increment `total_timesteps`;
2. line 156: increment `packets_received`;
3. lines 159–186: if `total_particle_count != packet.total_particle_count`,
   free the old arrays and `calloc` new ones of length
   `packet.total_particle_count` (zero-filled), set every `x[particle]` to
   `UNDEFINED_PARTICLE`, set `rotation_center[0] = UNDEFINED_PARTICLE`, and
   copy `world_origin`/`world_size` from the packet;
4. line 189: store `total_particle_count = packet.total_particle_count`;
5. lines 192–203: continue the loop variable `particle` (see
   `data_thread_loop_start`) up to `packet.particle_count`, writing each
   record `packet.data[particle]` at index `packet.data[particle].id`;
6. lines 204–208: if `rotation_center[0] == UNDEFINED_PARTICLE`, recompute
   `rotation_center` from `world_origin`/`world_size` (with the Y/Z axis
   permutation of the source);
7. line 209: `udp_buffer_size = total_particle_count * sizeof(ptp_packet_t)`.
-/
def data_thread_apply_packet (sw : seewaves_t) (p : ptp_packet_t) :
    seewaves_t :=
  let sw1 : seewaves_t :=
    if p.t > sw.most_recent_timestamp then
      { sw with most_recent_timestamp := p.t
                total_timesteps := sw.total_timesteps + 1 }
    else sw
  let sw2 : seewaves_t :=
    { sw1 with packets_received := sw1.packets_received + 1 }
  let sw3 : seewaves_t :=
    if sw2.total_particle_count ≠ p.total_particle_count then
      { sw2 with
        x := List.replicate p.total_particle_count UNDEFINED_PARTICLE
        y := List.replicate p.total_particle_count 0
        z := List.replicate p.total_particle_count 0
        particle_type := List.replicate p.total_particle_count 0
        t := List.replicate p.total_particle_count 0
        rotation_center0 := UNDEFINED_PARTICLE
        world_origin0 := p.world_origin0
        world_origin1 := p.world_origin1
        world_origin2 := p.world_origin2
        world_size0 := p.world_size0
        world_size1 := p.world_size1
        world_size2 := p.world_size2 }
    else sw2
  let start := data_thread_loop_start sw p
  let sw4 : seewaves_t :=
    { sw3 with total_particle_count := p.total_particle_count }
  let sw5 : seewaves_t :=
    ((p.data.take p.particle_count).drop start).foldl
      (data_thread_write_record p.t) sw4
  { sw5 with
    rotation_center0 :=
      if sw5.rotation_center0 = UNDEFINED_PARTICLE then
        sw5.world_origin0 + sw5.world_size0 / 2
      else sw5.rotation_center0
    rotation_center1 :=
      if sw5.rotation_center0 = UNDEFINED_PARTICLE then
        sw5.world_origin2 + sw5.world_size2 / 2
      else sw5.rotation_center1
    rotation_center2 :=
      if sw5.rotation_center0 = UNDEFINED_PARTICLE then
        sw5.world_origin1 + sw5.world_size1 / 2
      else sw5.rotation_center2
    udp_buffer_size := sw5.total_particle_count * sizeof_ptp_packet_t }

/-- The array indices the record loop (`data_thread.c:192-203`) writes for
one applied packet: the `id` field of each processed record. The loop
performs `sw->t[id] = ...; sw->x[id] = ...;` etc. with no bound check, so
every listed index is written whether or not it is below
`total_particle_count`. -/
def data_thread_write_ids (sw : seewaves_t) (p : ptp_packet_t) : List ℕ :=
  ((p.data.take p.particle_count).drop (data_thread_loop_start sw p)).map
    (fun r => r.id)

/-- The attempted writes of the record loop that fall outside the arrays
(of length `packet.total_particle_count` after step 4): indices `id` with
`id ≥ total_particle_count`. In the C source these are out-of-bounds stores
through `sw->t`, `sw->x`, `sw->y`, `sw->z`, `sw->particle_type`. -/
def data_thread_oob_writes (sw : seewaves_t) (p : ptp_packet_t) : List ℕ :=
  (data_thread_write_ids sw p).filter
    (fun id => decide (p.total_particle_count ≤ id))

/-- Whether one application writes through a NULL array pointer when a
`calloc` of the resize branch fails. From `data_thread.c:159-186`: when the
particle counts differ, the code assigns the five `calloc` results to
`sw->x`, `sw->y`, `sw->z`, `sw->particle_type`, `sw->t` without any NULL
check and immediately runs
`for(particle = 0; particle < packet.total_particle_count; particle++)
sw->x[particle] = UNDEFINED_PARTICLE;`, so with a failed allocation and a
positive particle count the first iteration stores through NULL. -/
def data_thread_null_write (sw : seewaves_t) (p : ptp_packet_t)
    (alloc_ok : Bool) : Bool :=
  decide (sw.total_particle_count ≠ p.total_particle_count) && !alloc_ok &&
    decide (0 < p.total_particle_count)

/-- The `errno` values the two network loops distinguish. `other` stands for
any value none of the listed branches match. -/
inductive c_errno where
  | eintr | ebadf | einval | eagain | ewouldblock | etimedout | other
deriving DecidableEq, Repr

/-- What one iteration of the data-thread receive loop does after
`recvfrom` returns. -/
inductive data_loop_action where
  /-- the packet is decoded and applied to the store, loop continues -/
  | apply_packet
  /-- the loop continues without touching the store -/
  | continue_loop
  /-- `done` is set, the loop terminates -/
  | stop
deriving DecidableEq, Repr

/-- Outcome classification of one iteration of the receive loop of
`data_thread_main` (`data_thread.c:136-273`), as a function of the value
returned by `recvfrom` (`len`, a byte count or -1) and of the prevailing
`errno` value. From the source:
- `len == sizeof(ptp_packet_t)`: the packet is applied (lines 138–250);
- `len == 0`: `done = 1` (lines 251–253);
- any other length, -1 included, falls into the `else` branch
  (lines 254–273), which dispatches on `errno` alone: EINTR, EAGAIN and
  EWOULDBLOCK continue; EBADF and EINVAL set `done = 1`; any other value is
  logged and sets `done = 1`.
Note the code never inspects `len` in the `else` branch: a datagram of a
wrong positive length is classified by whatever `errno` was left by an
earlier call. -/
def data_thread_recv_step (len : ℤ) (e : c_errno) : data_loop_action :=
  if len = (sizeof_ptp_packet_t : ℤ) then .apply_packet
  else if len = 0 then .stop
  else
    match e with
    | .eintr => .continue_loop
    | .ebadf => .stop
    | .einval => .stop
    | .eagain => .continue_loop
    | .ewouldblock => .continue_loop
    | .etimedout => .stop
    | .other => .stop

/-- One full iteration of the receive loop on the store: the store is
mutated (by `data_thread_apply_packet`) exactly when the received length
equals `sizeof(ptp_packet_t)`; `p` is the decoded packet in that case.
Returns the new store and whether the loop continues. -/
def data_thread_loop_iter (sw : seewaves_t) (len : ℤ) (e : c_errno)
    (p : ptp_packet_t) : seewaves_t × Bool :=
  match data_thread_recv_step len e with
  | .apply_packet => (data_thread_apply_packet sw p, true)
  | .continue_loop => (sw, true)
  | .stop => (sw, false)

/-- State of the heartbeat thread loop of `heartbeat_thread_main`
(`seewaves.c:462-493`): the time of the last recorded send and the
session counter `heartbeats_sent` it updates in the store. -/
structure heartbeat_state where
  last_heartbeat_sent : ℤ
  heartbeats_sent : ℕ
  done : Bool
deriving DecidableEq, Repr

/-- One check tick of the heartbeat loop (`seewaves.c:470-493`), given the
current wall-clock time `now` (seconds, as read by `time()`) and the value
`bytes_sent` that `sendto` returns if a send is attempted. From the source:
- a heartbeat is transmitted iff `difftime(now, last_heartbeat_sent) >
  PTP_HEARTBEAT_TTL_S` (line 472);
- on a send attempt: `bytes_sent == -1` only logs (unless EBADF);
  `bytes_sent == 0` sets `done = 1`; a positive count increments
  `heartbeats_sent` (lines 479–490);
- `time(&last_heartbeat_sent)` then records the send time regardless of the
  outcome (line 492; the second clock read is modelled as the same tick
  time `now`). -/
def heartbeat_thread_tick (st : heartbeat_state) (now : ℤ) (bytes_sent : ℤ) :
    heartbeat_state :=
  if now - st.last_heartbeat_sent > PTP_HEARTBEAT_TTL_S then
    { last_heartbeat_sent := now
      heartbeats_sent :=
        if bytes_sent > 0 then st.heartbeats_sent + 1 else st.heartbeats_sent
      done := if bytes_sent = 0 then true else st.done }
  else st

/-- Whether a tick at time `now` transmits a heartbeat datagram, i.e.
reaches the `sendto` call: the condition of `seewaves.c:472`. -/
def heartbeat_tick_sends (st : heartbeat_state) (now : ℤ) : Bool :=
  now - st.last_heartbeat_sent > PTP_HEARTBEAT_TTL_S

/-! ## Helper lemmas about the record-write fold -/

/-- Folding record writes changes only the five per-particle arrays. -/
theorem foldl_write_record_fields (pt : ℚ) (l : List ptp_particle_data_t)
    (sw : seewaves_t) :
    (l.foldl (data_thread_write_record pt) sw).total_particle_count =
      sw.total_particle_count ∧
    (l.foldl (data_thread_write_record pt) sw).most_recent_timestamp =
      sw.most_recent_timestamp ∧
    (l.foldl (data_thread_write_record pt) sw).total_timesteps =
      sw.total_timesteps ∧
    (l.foldl (data_thread_write_record pt) sw).packets_received =
      sw.packets_received ∧
    (l.foldl (data_thread_write_record pt) sw).rotation_center0 =
      sw.rotation_center0 ∧
    (l.foldl (data_thread_write_record pt) sw).world_origin0 =
      sw.world_origin0 ∧
    (l.foldl (data_thread_write_record pt) sw).world_origin1 =
      sw.world_origin1 ∧
    (l.foldl (data_thread_write_record pt) sw).world_origin2 =
      sw.world_origin2 ∧
    (l.foldl (data_thread_write_record pt) sw).world_size0 =
      sw.world_size0 ∧
    (l.foldl (data_thread_write_record pt) sw).world_size1 =
      sw.world_size1 ∧
    (l.foldl (data_thread_write_record pt) sw).world_size2 =
      sw.world_size2 := by
  induction l generalizing sw with
  | nil => exact ⟨rfl, rfl, rfl, rfl, rfl, rfl, rfl, rfl, rfl, rfl, rfl⟩
  | cons r l ih =>
      simpa only [List.foldl_cons, data_thread_write_record] using
        ih { sw with
              t := sw.t.set r.id pt
              x := sw.x.set r.id r.position0
              y := sw.y.set r.id r.position1
              z := sw.z.set r.id r.position2
              particle_type := sw.particle_type.set r.id r.particle_type }

/-- Folding record writes leaves every array index that no processed record
names unchanged. -/
theorem foldl_write_record_frame (pt : ℚ) (l : List ptp_particle_data_t)
    (sw : seewaves_t) (i : ℕ) (hi : i ∉ l.map (fun r => r.id)) :
    (l.foldl (data_thread_write_record pt) sw).x[i]? = sw.x[i]? ∧
    (l.foldl (data_thread_write_record pt) sw).y[i]? = sw.y[i]? ∧
    (l.foldl (data_thread_write_record pt) sw).z[i]? = sw.z[i]? ∧
    (l.foldl (data_thread_write_record pt) sw).particle_type[i]? =
      sw.particle_type[i]? ∧
    (l.foldl (data_thread_write_record pt) sw).t[i]? = sw.t[i]? := by
  induction l generalizing sw with
  | nil => exact ⟨rfl, rfl, rfl, rfl, rfl⟩
  | cons r l ih =>
      rw [List.map_cons, List.mem_cons, not_or] at hi
      obtain ⟨hne, hmem⟩ := hi
      have hfr := ih { sw with
              t := sw.t.set r.id pt
              x := sw.x.set r.id r.position0
              y := sw.y.set r.id r.position1
              z := sw.z.set r.id r.position2
              particle_type := sw.particle_type.set r.id r.particle_type }
        hmem
      simp only [List.foldl_cons, data_thread_write_record] at hfr ⊢
      rw [hfr.1, hfr.2.1, hfr.2.2.1, hfr.2.2.2.1, hfr.2.2.2.2]
      refine ⟨?_, ?_, ?_, ?_, ?_⟩ <;>
        exact List.getElem?_set_ne (fun h => hne h.symm)


/-- The record-write fold keeps `total_particle_count`. -/
theorem foldl_wr_total (pt : ℚ) (l : List ptp_particle_data_t)
    (sw : seewaves_t) :
    (l.foldl (data_thread_write_record pt) sw).total_particle_count =
      sw.total_particle_count :=
  (foldl_write_record_fields pt l sw).1

/-- The record-write fold keeps `most_recent_timestamp`. -/
theorem foldl_wr_mrt (pt : ℚ) (l : List ptp_particle_data_t)
    (sw : seewaves_t) :
    (l.foldl (data_thread_write_record pt) sw).most_recent_timestamp =
      sw.most_recent_timestamp :=
  (foldl_write_record_fields pt l sw).2.1

/-- The record-write fold keeps `total_timesteps`. -/
theorem foldl_wr_steps (pt : ℚ) (l : List ptp_particle_data_t)
    (sw : seewaves_t) :
    (l.foldl (data_thread_write_record pt) sw).total_timesteps =
      sw.total_timesteps :=
  (foldl_write_record_fields pt l sw).2.2.1

/-- The record-write fold keeps `packets_received`. -/
theorem foldl_wr_packets (pt : ℚ) (l : List ptp_particle_data_t)
    (sw : seewaves_t) :
    (l.foldl (data_thread_write_record pt) sw).packets_received =
      sw.packets_received :=
  (foldl_write_record_fields pt l sw).2.2.2.1

/-- The record-write fold keeps `rotation_center0`. -/
theorem foldl_wr_rot0 (pt : ℚ) (l : List ptp_particle_data_t)
    (sw : seewaves_t) :
    (l.foldl (data_thread_write_record pt) sw).rotation_center0 =
      sw.rotation_center0 :=
  (foldl_write_record_fields pt l sw).2.2.2.2.1

/-- Closed forms for the scalar fields of an applied packet: the timestamp
high-water mark, the timestep counter, the packet counter, the stored
particle total and the overwritten receive-buffer size. -/
theorem data_thread_apply_packet_scalars (sw : seewaves_t)
    (p : ptp_packet_t) :
    (data_thread_apply_packet sw p).most_recent_timestamp =
      (if sw.most_recent_timestamp < p.t then p.t
       else sw.most_recent_timestamp) ∧
    (data_thread_apply_packet sw p).total_timesteps =
      sw.total_timesteps +
        (if sw.most_recent_timestamp < p.t then 1 else 0) ∧
    (data_thread_apply_packet sw p).packets_received =
      sw.packets_received + 1 ∧
    (data_thread_apply_packet sw p).total_particle_count =
      p.total_particle_count ∧
    (data_thread_apply_packet sw p).udp_buffer_size =
      p.total_particle_count * sizeof_ptp_packet_t := by
  unfold data_thread_apply_packet
  by_cases ht : p.t > sw.most_recent_timestamp <;>
  by_cases hresize : sw.total_particle_count ≠ p.total_particle_count <;>
  simp only [ht, hresize, gt_iff_lt, ite_true, ite_false, if_pos, if_neg,
    not_false_iff, data_thread_loop_start] <;>
  simp_all [foldl_wr_total, foldl_wr_mrt, foldl_wr_steps, foldl_wr_packets,
    foldl_wr_rot0]

/-! ## Concrete test fixtures -/

/-- The spec's §8 scenario packet: total=100, particle_count=2, t=1.0,
records {id=5, pos=(1,2,3)} and {id=99, pos=(4,5,6)}. -/
def ptp_scenario_packet : ptp_packet_t :=
  { total_particle_count := 100, particle_count := 2, t := 1
    world_origin0 := 0, world_origin1 := 0, world_origin2 := 0
    world_size0 := 0, world_size1 := 0, world_size2 := 0
    data := [ { id := 5, position0 := 1, position1 := 2, position2 := 3
                position3 := 0, particle_type := 0 },
              { id := 99, position0 := 4, position1 := 5, position2 := 6
                position3 := 0, particle_type := 0 } ] }

/-- A store already holding a 10-particle model, arrays of length 10. -/
def seewaves_ten : seewaves_t :=
  { seewaves_empty with
    total_particle_count := 10
    x := List.replicate 10 UNDEFINED_PARTICLE
    y := List.replicate 10 0
    z := List.replicate 10 0
    particle_type := List.replicate 10 0
    t := List.replicate 10 0 }

/-- A packet for the 10-particle model carrying one record whose id (10) is
out of range for arrays of length 10. -/
def ptp_oob_packet : ptp_packet_t :=
  { total_particle_count := 10, particle_count := 1, t := 2
    world_origin0 := 0, world_origin1 := 0, world_origin2 := 0
    world_size0 := 0, world_size1 := 0, world_size2 := 0
    data := [ { id := 10, position0 := 7, position1 := 8, position2 := 9
                position3 := 0, particle_type := 1 } ] }

/-! ## Claim theorems -/

/-- C1. Applying the spec's scenario packet (total=100, particle_count=2,
t=1.0, records for ids 5 and 99) to the empty store yields
total_particle_count=100, all five arrays of length 100,
most_recent_timestamp=1, total_timesteps=1, packets_received=1 — but the
records for ids 5 and 99 are NOT written: the whole x array, slots 5 and 99
included, still holds the undefined sentinel, because the record loop's
index variable carries over from the sentinel-initialization loop of the
resize branch and starts at 100 ≥ particle_count. This refutes the claim's
"records for ids 5 and 99 written" conjunct and establishes the rest. -/
theorem c1_scenario_resize_skips_records :
    (data_thread_apply_packet seewaves_empty
        ptp_scenario_packet).total_particle_count = 100 ∧
    (data_thread_apply_packet seewaves_empty ptp_scenario_packet).x.length
      = 100 ∧
    (data_thread_apply_packet seewaves_empty ptp_scenario_packet).y.length
      = 100 ∧
    (data_thread_apply_packet seewaves_empty ptp_scenario_packet).z.length
      = 100 ∧
    (data_thread_apply_packet seewaves_empty
        ptp_scenario_packet).particle_type.length = 100 ∧
    (data_thread_apply_packet seewaves_empty ptp_scenario_packet).t.length
      = 100 ∧
    (data_thread_apply_packet seewaves_empty
        ptp_scenario_packet).most_recent_timestamp = 1 ∧
    (data_thread_apply_packet seewaves_empty
        ptp_scenario_packet).total_timesteps = 1 ∧
    (data_thread_apply_packet seewaves_empty
        ptp_scenario_packet).packets_received = 1 ∧
    (data_thread_apply_packet seewaves_empty ptp_scenario_packet).x =
      List.replicate 100 UNDEFINED_PARTICLE ∧
    (data_thread_apply_packet seewaves_empty ptp_scenario_packet).x[5]? =
      some UNDEFINED_PARTICLE ∧
    (data_thread_apply_packet seewaves_empty ptp_scenario_packet).x[99]? =
      some UNDEFINED_PARTICLE := by
  decide

/-- C5. Applying the scenario packet twice to the empty store is NOT
idempotent up to packets_received: after the first application slot 5 holds
the sentinel (the resize made the record loop start past the records), but
the second application — no resize this time — writes the records, so x[5]
becomes 1 and x[99] becomes 4. The stores differ beyond the packet
counter. -/
theorem c5_double_apply_differs :
    (data_thread_apply_packet seewaves_empty ptp_scenario_packet).x[5]? =
      some UNDEFINED_PARTICLE ∧
    (data_thread_apply_packet
        (data_thread_apply_packet seewaves_empty ptp_scenario_packet)
        ptp_scenario_packet).x[5]? = some 1 ∧
    (data_thread_apply_packet
        (data_thread_apply_packet seewaves_empty ptp_scenario_packet)
        ptp_scenario_packet).x[99]? = some 4 ∧
    (data_thread_apply_packet
        (data_thread_apply_packet seewaves_empty ptp_scenario_packet)
        ptp_scenario_packet).packets_received =
      (data_thread_apply_packet seewaves_empty
          ptp_scenario_packet).packets_received + 1 ∧
    data_thread_apply_packet
        (data_thread_apply_packet seewaves_empty ptp_scenario_packet)
        ptp_scenario_packet ≠
      data_thread_apply_packet seewaves_empty ptp_scenario_packet := by
  have h0 : (data_thread_apply_packet seewaves_empty
      ptp_scenario_packet).x[5]? = some UNDEFINED_PARTICLE := by decide
  have h1 : (data_thread_apply_packet
      (data_thread_apply_packet seewaves_empty ptp_scenario_packet)
      ptp_scenario_packet).x[5]? = some 1 := by decide
  refine ⟨h0, h1, by decide, by decide, fun h => ?_⟩
  rw [h, h0] at h1
  exact absurd (Option.some.inj h1) (by norm_num [UNDEFINED_PARTICLE])

/-- C2. The record loop performs an out-of-bounds write: applying
`ptp_oob_packet` (total=10, one record with id=10) to the 10-particle store
makes the code store through `sw->t[10]`, `sw->x[10]`, ... although the
arrays have length 10 — `data_thread_oob_writes` lists the attempted write
index 10 ≥ total_particle_count = 10. The record is processed, not
discarded. -/
theorem c2_oob_record_written :
    data_thread_oob_writes seewaves_ten ptp_oob_packet = [10] ∧
    seewaves_ten.total_particle_count = 10 ∧
    seewaves_ten.x.length = 10 := by
  decide

/-- C9. When the first packet for a new model arrives and a `calloc` of the
resize branch fails, the code writes through a NULL array pointer: it
checks none of the five allocations and immediately runs the
sentinel-initialization loop on `x`. -/
theorem c9_alloc_failure_null_write :
    data_thread_null_write seewaves_empty ptp_scenario_packet false
      = true := by
  decide

/-- C3. `most_recent_timestamp` never decreases under packet application,
and a packet whose `t` is strictly below the current high-water mark leaves
it unchanged (`data_thread.c:150-153` only assigns on `packet.t >
most_recent_timestamp`). -/
theorem c3_most_recent_timestamp_monotone (sw : seewaves_t)
    (p : ptp_packet_t) :
    sw.most_recent_timestamp ≤
      (data_thread_apply_packet sw p).most_recent_timestamp ∧
    (p.t < sw.most_recent_timestamp →
      (data_thread_apply_packet sw p).most_recent_timestamp =
        sw.most_recent_timestamp) := by
  obtain ⟨h1, -⟩ := data_thread_apply_packet_scalars sw p
  rw [h1]
  constructor
  · split
    · exact le_of_lt ‹_›
    · exact le_rfl
  · intro hlt
    rw [if_neg (not_lt.mpr hlt.le)]

/-- Witness for C3 at a concrete input: a store whose high-water mark is 2
receiving the scenario packet (t = 1 < 2) keeps most_recent_timestamp = the
old value. -/
theorem c3_witness :
    (data_thread_apply_packet
        { seewaves_empty with most_recent_timestamp := 2 }
        ptp_scenario_packet).most_recent_timestamp =
      ({ seewaves_empty with most_recent_timestamp := 2 } :
        seewaves_t).most_recent_timestamp :=
  (c3_most_recent_timestamp_monotone
    { seewaves_empty with most_recent_timestamp := 2 }
    ptp_scenario_packet).2 (by decide)

/-- C4. `total_timesteps` grows by exactly one when the packet's
`simulation_time` strictly exceeds the stored high-water mark, and by zero
otherwise — equality included (`data_thread.c:150-153`). -/
theorem c4_total_timesteps_increment (sw : seewaves_t) (p : ptp_packet_t) :
    (data_thread_apply_packet sw p).total_timesteps =
      sw.total_timesteps +
        (if sw.most_recent_timestamp < p.t then 1 else 0) :=
  (data_thread_apply_packet_scalars sw p).2.1

/-- C10. Every applied packet — resize or not — overwrites
`udp_buffer_size` with `total_particle_count * sizeof(ptp_packet_t)`
(`data_thread.c:209`), so whatever value socket setup captured there does
not survive the first applied packet. -/
theorem c10_udp_buffer_size_overwritten (sw : seewaves_t)
    (p : ptp_packet_t) :
    (data_thread_apply_packet sw p).udp_buffer_size =
      p.total_particle_count * sizeof_ptp_packet_t :=
  (data_thread_apply_packet_scalars sw p).2.2.2.2

/-- C6. A partial packet that triggers no resize (its total equals the
store's total and its particle_count is below it) leaves position,
particle_type and last-update time of every id its records do not name
unchanged: the record loop at `data_thread.c:192-203` writes only at the
ids it carries. -/
theorem c6_partial_packet_frame (sw : seewaves_t) (p : ptp_packet_t)
    (i : ℕ) (htot : p.total_particle_count = sw.total_particle_count)
    (hpc : p.particle_count < p.total_particle_count)
    (hi : i ∉ data_thread_write_ids sw p) :
    (data_thread_apply_packet sw p).x[i]? = sw.x[i]? ∧
    (data_thread_apply_packet sw p).y[i]? = sw.y[i]? ∧
    (data_thread_apply_packet sw p).z[i]? = sw.z[i]? ∧
    (data_thread_apply_packet sw p).particle_type[i]? =
      sw.particle_type[i]? ∧
    (data_thread_apply_packet sw p).t[i]? = sw.t[i]? := by
  unfold data_thread_apply_packet
  unfold data_thread_write_ids at hi
  unfold data_thread_loop_start at hi ⊢
  by_cases ht : p.t > sw.most_recent_timestamp <;>
  simp only [ht, htot, gt_iff_lt, ite_true, ite_false, if_pos, if_neg,
    ne_eq, not_true_eq_false, not_false_eq_true, List.drop_zero] at hi ⊢ <;>
  exact foldl_write_record_frame p.t _ _ i hi

/-- Witness for C6 at a concrete input: the 10-particle store receives a
no-resize packet carrying one record (for id 10); slot 0, which the packet
does not name, is unchanged in all five arrays. -/
theorem c6_witness :
    (data_thread_apply_packet seewaves_ten ptp_oob_packet).x[0]? =
      seewaves_ten.x[0]? ∧
    (data_thread_apply_packet seewaves_ten ptp_oob_packet).y[0]? =
      seewaves_ten.y[0]? ∧
    (data_thread_apply_packet seewaves_ten ptp_oob_packet).z[0]? =
      seewaves_ten.z[0]? ∧
    (data_thread_apply_packet seewaves_ten
        ptp_oob_packet).particle_type[0]? =
      seewaves_ten.particle_type[0]? ∧
    (data_thread_apply_packet seewaves_ten ptp_oob_packet).t[0]? =
      seewaves_ten.t[0]? :=
  c6_partial_packet_frame seewaves_ten ptp_oob_packet 0 (by decide)
    (by decide) (by decide)

/-- C7. One heartbeat check tick (`seewaves.c:470-493`): a datagram is
transmitted iff the elapsed wall-clock seconds since the last recorded send
exceed the TTL; when a send is attempted the send time is recorded
regardless of the outcome; `heartbeats_sent` grows by one exactly when the
send returns a positive byte count; and (scenario) after a sending tick, a
second tick at most one clock second later — two ticks 0.2 s apart on the
integer `time()` clock — does not send, so the two ticks together send
exactly one heartbeat. -/
theorem c7_heartbeat_tick_behaviour (st : heartbeat_state)
    (now n2 bs b2 : ℤ) :
    (heartbeat_tick_sends st now = true ↔
      PTP_HEARTBEAT_TTL_S < now - st.last_heartbeat_sent) ∧
    (heartbeat_tick_sends st now = true →
      (heartbeat_thread_tick st now bs).last_heartbeat_sent = now) ∧
    ((heartbeat_thread_tick st now bs).heartbeats_sent =
      if heartbeat_tick_sends st now = true ∧ 0 < bs
      then st.heartbeats_sent + 1 else st.heartbeats_sent) ∧
    (heartbeat_tick_sends st now = true → now ≤ n2 → n2 ≤ now + 1 →
      0 < bs →
      heartbeat_tick_sends (heartbeat_thread_tick st now bs) n2 = false ∧
      (heartbeat_thread_tick (heartbeat_thread_tick st now bs) n2
          b2).heartbeats_sent = st.heartbeats_sent + 1) := by
  refine ⟨?_, ?_, ?_, ?_⟩
  · simp [heartbeat_tick_sends]
  · intro hs
    have hs' : PTP_HEARTBEAT_TTL_S < now - st.last_heartbeat_sent := by
      simpa [heartbeat_tick_sends] using hs
    simp [heartbeat_thread_tick, hs']
  · simp only [heartbeat_thread_tick, heartbeat_tick_sends,
      decide_eq_true_eq]
    split_ifs <;> simp_all
  · intro hs hle hle2 hbs
    have hs' : PTP_HEARTBEAT_TTL_S < now - st.last_heartbeat_sent := by
      simpa [heartbeat_tick_sends] using hs
    have hn : ¬ PTP_HEARTBEAT_TTL_S < n2 - now := by
      simp only [PTP_HEARTBEAT_TTL_S]; omega
    constructor
    · simp [heartbeat_tick_sends, heartbeat_thread_tick, hs', hn]
    · simp [heartbeat_thread_tick, hs', hn, hbs]

/-- Witness for C7 at a concrete input: starting from
`last_heartbeat_sent = 0`, a tick at t=2 sends (2-0 > 1) and a second tick
at t=3 (one clock second later, as two wall-clock instants 0.2 s apart can
be) does not; with a positive byte count on the first send,
`heartbeats_sent` ends at 1. -/
theorem c7_witness :
    heartbeat_tick_sends
      (heartbeat_thread_tick ⟨0, 0, false⟩ 2 1) 3 = false ∧
    (heartbeat_thread_tick (heartbeat_thread_tick ⟨0, 0, false⟩ 2 1) 3
        1).heartbeats_sent = (0 : ℕ) + 1 :=
  (c7_heartbeat_tick_behaviour ⟨0, 0, false⟩ 2 3 1 1).2.2.2
    (by decide) (by decide) (by decide) (by decide)

/-- C8 (counterexample to the claim as stated). A datagram of malformed
length 1 does not always let the loop continue: with the prevailing errno
EBADF — stale, since a successful `recvfrom` sets no errno — the `else`
branch of `data_thread.c:254-273` stops the loop. -/
theorem c8_malformed_length_may_stop :
    (1 : ℤ) ≠ (sizeof_ptp_packet_t : ℤ) ∧ (1 : ℤ) ≠ 0 ∧
    (data_thread_loop_iter seewaves_empty 1 c_errno.ebadf
        ptp_scenario_packet).2 = false := by
  refine ⟨by decide, by decide, rfl⟩

/-- C8 (amended). One receive-loop iteration classifies the outcome:
a received length equal to `sizeof(ptp_packet_t)` is decoded and applied
and the loop continues; length 0 stops the loop; for every other length —
-1 with an error, or a malformed/undersized datagram — the store is not
mutated (so `packets_received` is not incremented) and the loop continues
exactly when the prevailing errno is EINTR, EAGAIN or EWOULDBLOCK; EBADF,
EINVAL and every unlisted errno value stop it. -/
theorem c8_recv_loop_classification (sw : seewaves_t) (len : ℤ)
    (e : c_errno) (p : ptp_packet_t) :
    (len = (sizeof_ptp_packet_t : ℤ) →
      data_thread_loop_iter sw len e p =
        (data_thread_apply_packet sw p, true)) ∧
    (len ≠ (sizeof_ptp_packet_t : ℤ) → len = 0 →
      data_thread_loop_iter sw len e p = (sw, false)) ∧
    (len ≠ (sizeof_ptp_packet_t : ℤ) → len ≠ 0 →
      (data_thread_loop_iter sw len e p).1 = sw ∧
      ((data_thread_loop_iter sw len e p).2 = true ↔
        e = c_errno.eintr ∨ e = c_errno.eagain ∨
          e = c_errno.ewouldblock)) := by
  refine ⟨?_, ?_, ?_⟩
  · intro h
    simp [data_thread_loop_iter, data_thread_recv_step, h]
  · intro h h0
    subst h0
    norm_num [data_thread_loop_iter, data_thread_recv_step,
      sizeof_ptp_packet_t]
  · intro h h0
    cases e <;>
      simp [data_thread_loop_iter, data_thread_recv_step, h, h0]

/-- Witness for C8 at a concrete input: length 3 (neither 0 nor the packet
size) with errno EAGAIN leaves the store untouched and continues the
loop. -/
theorem c8_witness :
    (data_thread_loop_iter seewaves_empty 3 c_errno.eagain
        ptp_scenario_packet).1 = seewaves_empty ∧
    ((data_thread_loop_iter seewaves_empty 3 c_errno.eagain
        ptp_scenario_packet).2 = true ↔
      c_errno.eagain = c_errno.eintr ∨ c_errno.eagain = c_errno.eagain ∨
        c_errno.eagain = c_errno.ewouldblock) :=
  (c8_recv_loop_classification seewaves_empty 3 c_errno.eagain
      ptp_scenario_packet).2.2 (by decide) (by decide)
